import Mathlib

/-!
Shallow embedding of the swap-setup subsystem of the xmr-btc-swap
repository, covering:

- the maker-side spot-price validation, error mapping and inbound
  protocol task (src/swap/src/protocol/alice/swap_setup.rs);
- the taker-side event loop's dial handling (src/swap/src/bob/event_loop.rs).

Pure data and control flow is translated directly from the Rust source.
External capabilities (wallets, the exchange-rate source, the substream,
the wallet-snapshot reply channel) are modelled as explicit inputs, and
the effects the code performs on them (wire writes, channel sends) are
recorded in explicit event traces so that ordering claims can be stated.
-/

namespace XmrBtcSwap

/-- A bitcoin amount: in the source `bitcoin::Amount`, a u64 number of
satoshis. Amounts in the validated range are far below 2^64, so the
amount is modelled as a plain natural number of satoshis. -/
structure BitcoinAmount where
  sats : Nat
deriving DecidableEq, Repr

/-- A monero amount: in the source `monero::Amount`, a u64 number of
piconero, modelled as a plain natural number. -/
structure MoneroAmount where
  piconero : Nat
deriving DecidableEq, Repr

/-- Bitcoin network tag (from the `bitcoin` crate's `Network`). -/
inductive BitcoinNetwork where
  | mainnet
  | testnet
  | signet
  | regtest
deriving DecidableEq, Repr

/-- Monero network tag (from the `monero` crate's `Network`). -/
inductive MoneroNetwork where
  | mainnet
  | stagenet
  | testnet
deriving DecidableEq, Repr

/-- `BlockchainNetwork` from the wire protocol: a pair of network tags;
equality is strict on both fields (the derived `PartialEq`). -/
structure BlockchainNetwork where
  bitcoin : BitcoinNetwork
  monero : MoneroNetwork
deriving DecidableEq, Repr

/-- The fields of `env::Config` that `swap_setup.rs` reads. -/
structure EnvConfig where
  bitcoin_network : BitcoinNetwork
  monero_network : MoneroNetwork
deriving DecidableEq, Repr

/-- `SpotPriceRequest`: the first message the taker sends. -/
structure SpotPriceRequest where
  btc : BitcoinAmount
  blockchain_network : BlockchainNetwork
deriving DecidableEq, Repr

/-- An opaque bitcoin address token (`bitcoin::Address` in the source);
its structure is irrelevant to every claim. -/
abbrev BtcAddr := Nat

/-- `WalletSnapshot` (swap_setup.rs lines 46-58): the bundle captured at
setup start. -/
structure WalletSnapshot where
  balance : MoneroAmount
  lock_fee : MoneroAmount
  redeem_address : BtcAddr
  punish_address : BtcAddr
  redeem_fee : BitcoinAmount
  punish_fee : BitcoinAmount
deriving DecidableEq, Repr

/-- The internal error enum `Error` of swap_setup.rs (lines 460-494).
Opaque error payloads (`anyhow::Error`, boxed sources) are modelled as
natural-number tokens: the code never inspects them, only carries them. -/
inductive Error where
  | ResumeOnlyMode
  | AmountBelowMinimum (min buy : BitcoinAmount)
  | AmountAboveMaximum (max buy : BitcoinAmount)
  | BalanceTooLow (balance : MoneroAmount) (buy : BitcoinAmount)
  | LatestRateFetchFailed (source : Nat)
  | SellQuoteCalculationFailed (source : Nat)
  | BlockchainNetworkMismatch (cli asb : BlockchainNetwork)
  | Io (source : Nat)
  | WalletSnapshotFailed (source : Nat)
  | Timeout (seconds : Nat)
deriving DecidableEq, Repr

/-- The on-wire error enum `SpotPriceError`. -/
inductive SpotPriceError where
  | NoSwapsAccepted
  | AmountBelowMinimum (min buy : BitcoinAmount)
  | AmountAboveMaximum (max buy : BitcoinAmount)
  | BalanceTooLow (buy : BitcoinAmount)
  | BlockchainNetworkMismatch (cli asb : BlockchainNetwork)
  | Other
deriving DecidableEq, Repr

/-- `SpotPriceResponse`: the maker's reply to the spot-price request. -/
inductive SpotPriceResponse where
  | Xmr (amount : MoneroAmount)
  | Error (error : SpotPriceError)
deriving DecidableEq, Repr

/-- `Error::to_error_response` (swap_setup.rs lines 496-522), translated
case by case. -/
def Error.to_error_response : Error → SpotPriceError
  | .ResumeOnlyMode => .NoSwapsAccepted
  | .AmountBelowMinimum min buy => .AmountBelowMinimum min buy
  | .AmountAboveMaximum max buy => .AmountAboveMaximum max buy
  | .BalanceTooLow _ buy => .BalanceTooLow buy
  | .BlockchainNetworkMismatch cli asb => .BlockchainNetworkMismatch cli asb
  | .LatestRateFetchFailed _ => .Other
  | .SellQuoteCalculationFailed _ => .Other
  | .WalletSnapshotFailed _ => .Other
  | .Timeout _ => .Other
  | .Io _ => .Other

/-- The rate capability (spec section 6): `Rate.sell_quote(btc)` returns a
monero amount or a quote error; the error payload is an opaque token. -/
structure Rate where
  sell_quote : BitcoinAmount → Except Nat MoneroAmount

/-- The `validate` future of `inject_fully_negotiated_inbound`
(swap_setup.rs lines 289-335): the chain of early-return checks. -/
def validate (resume_only : Bool) (min_buy max_buy : BitcoinAmount)
    (env_config : EnvConfig) (latest_rate : Except Nat Rate)
    (request : SpotPriceRequest) (wallet_snapshot : WalletSnapshot) :
    Except Error MoneroAmount :=
  if resume_only then
    .error Error.ResumeOnlyMode
  else
    let blockchain_network : BlockchainNetwork :=
      { bitcoin := env_config.bitcoin_network, monero := env_config.monero_network }
    if request.blockchain_network ≠ blockchain_network then
      .error (Error.BlockchainNetworkMismatch request.blockchain_network blockchain_network)
    else
      let btc := request.btc
      if btc.sats < min_buy.sats then
        .error (Error.AmountBelowMinimum min_buy btc)
      else if max_buy.sats < btc.sats then
        .error (Error.AmountAboveMaximum max_buy btc)
      else
        match latest_rate with
        | .error e => .error (Error.LatestRateFetchFailed e)
        | .ok rate =>
          match rate.sell_quote btc with
          | .error e => .error (Error.SellQuoteCalculationFailed e)
          | .ok xmr =>
            if wallet_snapshot.balance.piconero < xmr.piconero + wallet_snapshot.lock_fee.piconero then
              .error (Error.BalanceTooLow wallet_snapshot.balance btc)
            else
              .ok xmr

/-- First failing check in an ordered list of check outcomes
(`none` = the check passed, `some e` = it failed with error `e`). -/
def firstFailing : List (Option Error) → Option Error
  | [] => none
  | some e :: _ => some e
  | none :: rest => firstFailing rest

/-- The spec's ordered list of validation checks (spec section 4.3 step c
and section 8 "First-failure wins"): resume-only, network match, min,
max, rate fetch, quote, balance. A check whose input is unavailable
because an earlier check failed contributes `none` (it is skipped). -/
def specOrderedChecks (resume_only : Bool) (min_buy max_buy : BitcoinAmount)
    (env_config : EnvConfig) (latest_rate : Except Nat Rate)
    (request : SpotPriceRequest) (ws : WalletSnapshot) : List (Option Error) :=
  let net : BlockchainNetwork :=
    { bitcoin := env_config.bitcoin_network, monero := env_config.monero_network }
  [ if resume_only then some Error.ResumeOnlyMode else none,
    if request.blockchain_network ≠ net then
      some (Error.BlockchainNetworkMismatch request.blockchain_network net)
    else none,
    if request.btc.sats < min_buy.sats then
      some (Error.AmountBelowMinimum min_buy request.btc)
    else none,
    if max_buy.sats < request.btc.sats then
      some (Error.AmountAboveMaximum max_buy request.btc)
    else none,
    match latest_rate with
    | .error e => some (Error.LatestRateFetchFailed e)
    | .ok _ => none,
    match latest_rate with
    | .error _ => none
    | .ok rate =>
      match rate.sell_quote request.btc with
      | .error e => some (Error.SellQuoteCalculationFailed e)
      | .ok _ => none,
    match latest_rate with
    | .error _ => none
    | .ok rate =>
      match rate.sell_quote request.btc with
      | .error _ => none
      | .ok xmr =>
        if ws.balance.piconero < xmr.piconero + ws.lock_fee.piconero then
          some (Error.BalanceTooLow ws.balance request.btc)
        else none ]

/-- Validation as the spec words it: report the error of the earliest
failing check of `specOrderedChecks`, skipping all later ones; when every
check passes, succeed with the quoted amount. The fallback amount in the
success branch is unreachable: if no check failed, the rate fetch and the
quote both succeeded. -/
def specValidate (resume_only : Bool) (min_buy max_buy : BitcoinAmount)
    (env_config : EnvConfig) (latest_rate : Except Nat Rate)
    (request : SpotPriceRequest) (ws : WalletSnapshot) :
    Except Error MoneroAmount :=
  match firstFailing (specOrderedChecks resume_only min_buy max_buy env_config
      latest_rate request ws) with
  | some e => .error e
  | none =>
    match latest_rate with
    | .error _ => .ok ⟨0⟩
    | .ok rate =>
      match rate.sell_quote request.btc with
      | .error _ => .ok ⟨0⟩
      | .ok xmr => .ok xmr

/-- Opaque swap identifier (`Uuid` in the source). -/
abbrev Uuid := Nat

/-- Opaque final setup state (`alice::State3`); its contents are outside
the claims, so it is a token. -/
abbrev State3 := Nat

/-- Capacity of the wallet-snapshot request/reply channel
(`bmrng::channel_with_timeout(1, ...)`, swap_setup.rs line 269). -/
def walletSnapshotChannelCapacity : Nat := 1

/-- Reply timeout of the wallet-snapshot channel in seconds
(`Duration::from_secs(5)`, swap_setup.rs line 270). -/
def walletSnapshotTimeoutSecs : Nat := 5

/-- Observable effects of the inbound setup task, in the order the task
performs them: the send on the wallet-snapshot request channel, and each
write of a `SpotPriceResponse` on the substream. -/
inductive SetupEvent where
  | sentSnapshotRequest (btc : BitcoinAmount)
  | wroteSpotPrice (response : SpotPriceResponse)
deriving DecidableEq, Repr

/-- The environment of one inbound setup task: the outcome of reading the
`SpotPriceRequest`, the wallet-snapshot reply as a function of the amount
sent on the channel (`.error` = the 5-second reply timeout elapsed or the
channel failed), the outcome of each substream write as a function of the
message, and the rest of the negotiation (State0 construction and the
M0-M4 exchange, swap_setup.rs lines 356-399) abstracted as its result. -/
structure SetupEnv where
  readRequest : Except Nat SpotPriceRequest
  snapshotReply : BitcoinAmount → Except Nat WalletSnapshot
  writeSpot : SpotPriceResponse → Except Nat Unit
  rest : BitcoinAmount → MoneroAmount → WalletSnapshot → Except Error (Uuid × State3)

/-- The body of the inbound setup task (swap_setup.rs lines 278-354,
before the timeout wrapper): read the request, request the wallet
snapshot, validate, answer on the wire, then hand over to the rest of
the negotiation. Returns the trace of observable effects together with
the task's result. -/
def setupProtocol (resume_only : Bool) (min_buy max_buy : BitcoinAmount)
    (env_config : EnvConfig) (latest_rate : Except Nat Rate)
    (env : SetupEnv) : List SetupEvent × Except Error (Uuid × State3) :=
  match env.readRequest with
  | .error e => ([], .error ( Error.Io e))
  | .ok request =>
    match env.snapshotReply request.btc with
    | .error e =>
      ([SetupEvent.sentSnapshotRequest request.btc],
        .error (Error.WalletSnapshotFailed e))
    | .ok wallet_snapshot =>
      match validate resume_only min_buy max_buy env_config latest_rate
          request wallet_snapshot with
      | .ok xmr =>
        match env.writeSpot (SpotPriceResponse.Xmr xmr) with
        | .error w =>
          ([SetupEvent.sentSnapshotRequest request.btc,
            SetupEvent.wroteSpotPrice (SpotPriceResponse.Xmr xmr)],
            .error ( Error.Io w))
        | .ok _ =>
          ([SetupEvent.sentSnapshotRequest request.btc,
            SetupEvent.wroteSpotPrice (SpotPriceResponse.Xmr xmr)],
            env.rest request.btc xmr wallet_snapshot)
      | .error e =>
        match env.writeSpot (SpotPriceResponse.Error e.to_error_response) with
        | .error w =>
          ([SetupEvent.sentSnapshotRequest request.btc,
            SetupEvent.wroteSpotPrice (SpotPriceResponse.Error e.to_error_response)],
            .error ( Error.Io w))
        | .ok _ =>
          ([SetupEvent.sentSnapshotRequest request.btc,
            SetupEvent.wroteSpotPrice (SpotPriceResponse.Error e.to_error_response)],
            .error e)

/-- `KeepAlive` of libp2p: instants are modelled as natural numbers of
seconds. -/
inductive KeepAlive where
  | No
  | Until (instant : Nat)
  | Yes
deriving DecidableEq, Repr

instance {ε α : Type} [DecidableEq ε] [DecidableEq α] : DecidableEq (Except ε α) := fun a b =>
  match a, b with
  | .ok x, .ok y =>
    if h : x = y then .isTrue (by rw [h]) else .isFalse (by simp [h])
  | .error x, .error y =>
    if h : x = y then .isTrue (by rw [h]) else .isFalse (by simp [h])
  | .ok _, .error _ => .isFalse (by simp)
  | .error _, .ok _ => .isFalse (by simp)

/-- `HandlerOutEvent` (swap_setup.rs lines 239-243). The receiver handed
out by `Initiated` is not modelled; `Completed` carries the task result. -/
inductive HandlerOutEvent where
  | Initiated
  | Completed (result : Except Error (Uuid × State3))
deriving DecidableEq, Repr

/-- The state of the maker's per-connection `Handler` that the claims
are about: its keep-alive directive, its total timeout in seconds, and
whether an inbound stream task is installed. -/
structure Handler where
  keep_alive : KeepAlive
  timeoutSecs : Nat
  hasInboundStream : Bool
deriving DecidableEq, Repr

/-- `Handler::new` (swap_setup.rs lines 218-236): no inbound task yet,
a 60-second total timeout, keep-alive until five seconds from now. -/
def Handler.new (now : Nat) : Handler :=
  { keep_alive := .Until (now + 5)
    timeoutSecs := 60
    hasInboundStream := false }

/-- `inject_fully_negotiated_inbound`, as far as the handler's own state
is concerned (swap_setup.rs lines 261-413): upgrade keep-alive to `Yes`
and install the inbound task. (The task itself is `setupProtocol` under
`inboundStreamResult`; the `Initiated` event is pushed to the queue.) -/
def Handler.injectFullyNegotiatedInbound (h : Handler) : Handler × HandlerOutEvent :=
  ({ h with keep_alive := .Yes, hasInboundStream := true },
    HandlerOutEvent.Initiated)

/-- `Handler::poll` (swap_setup.rs lines 436-455). `streamReady` is the
outcome of polling the inbound task: `some result` when it resolved with
`result` (success or failure), `none` when it is absent or pending. On
resolution the keep-alive drops to `No` and `Completed result` is
emitted; otherwise the handler is unchanged and pending. -/
def Handler.poll (h : Handler) (streamReady : Option (Except Error (Uuid × State3))) :
    Handler × Option HandlerOutEvent :=
  match streamReady with
  | some result => ({ h with keep_alive := .No }, some (HandlerOutEvent.Completed result))
  | none => (h, none)

/-- Outcome of racing the setup task against the handler timeout:
either the task completed with a value before the deadline, or the
timeout elapsed first. -/
inductive TimedResult (α : Type) where
  | completed (value : α)
  | elapsed
deriving DecidableEq, Repr

/-- The future stored in `inbound_stream` (swap_setup.rs lines 402-410):
the whole protocol body runs under `tokio::time::timeout(self.timeout, ...)`
and an elapsed timeout is mapped to `Error::Timeout { seconds }` with
`seconds = self.timeout.as_secs()`. -/
def inboundStreamResult (timeoutSecs : Nat)
    (run : TimedResult (Except Error (Uuid × State3))) :
    Except Error (Uuid × State3) :=
  match run with
  | .completed r => r
  | .elapsed => .error (Error.Timeout timeoutSecs)

/-- Opaque peer identity (`PeerId` in the source). -/
abbrev PeerId := Nat

/-- Observable actions of the taker event loop's dial branch
(event_loop.rs lines 220-234): a send on one of the handle-facing
channels (conn_established, msg0..msg2), the swarm dial attempt, and the
log lines. Channel sends are distinguished from logs because only sends
are visible to the handle. -/
inductive TakerAction where
  | connEstablishedSend (peer : PeerId)
  | msg0Send (payload : Nat)
  | msg1Send (payload : Nat)
  | msg2Send (payload : Nat)
  | swarmDialAttempt (peer : PeerId)
  | logAlreadyConnected (peer : PeerId)
  | logDialing (peer : PeerId)
  | logDialFailure (peer : PeerId) (err : Nat)
deriving DecidableEq, Repr

/-- Whether an action is a send on a handle-facing channel. -/
def TakerAction.isHandleChannelSend : TakerAction → Bool
  | .connEstablishedSend _ => true
  | .msg0Send _ => true
  | .msg1Send _ => true
  | .msg2Send _ => true
  | .swarmDialAttempt _ => false
  | .logAlreadyConnected _ => false
  | .logDialing _ => false
  | .logDialFailure _ _ => false

/-- The `dial_alice` branch of `EventLoop::run` (event_loop.rs lines
220-234): `isConnected` is the swarm's `is_connected`, `dialOutcome` the
result of `libp2p::Swarm::dial` (only consulted when a dial is actually
attempted). Returns the actions the loop performs for one received dial
command. -/
def handleDialCommand (isConnected : PeerId → Bool)
    (dialOutcome : PeerId → Except Nat Unit) (peer : PeerId) : List TakerAction :=
  if isConnected peer then
    [TakerAction.logAlreadyConnected peer, TakerAction.connEstablishedSend peer]
  else
    match dialOutcome peer with
    | .ok _ => [TakerAction.logDialing peer, TakerAction.swarmDialAttempt peer]
    | .error e =>
      [TakerAction.logDialing peer, TakerAction.swarmDialAttempt peer,
        TakerAction.logDialFailure peer e]

/-- The monero network fee constant `monero::MONERO_FEE`. Its definition
lives in the repository's monero module, outside src/; its numeric value
is irrelevant to the claims, which only compare against the constant. -/
def MONERO_FEE : MoneroAmount := ⟨10000000000⟩

/-- Weight of the redeem transaction (`bitcoin::TxRedeem::weight()`),
defined outside src/; an opaque token distinct from the punish weight. -/
def txRedeemWeight : Nat := 0

/-- Weight of the punish transaction (`bitcoin::TxPunish::weight()`),
defined outside src/; an opaque token distinct from the redeem weight. -/
def txPunishWeight : Nat := 1

/-- The bitcoin wallet capability consumed by `WalletSnapshot::capture`:
`new_address` (indexed by call number, since the source calls it twice
and each call may return a different address) and `estimate_fee` as a
function of weight and transfer amount. Each call may fail. -/
structure BitcoinWallet where
  new_address : Nat → Except Nat BtcAddr
  estimate_fee : Nat → BitcoinAmount → Except Nat BitcoinAmount

/-- The monero wallet capability: `get_balance`, which may fail. -/
structure MoneroWallet where
  get_balance : Except Nat MoneroAmount

/-- `WalletSnapshot::capture` (swap_setup.rs lines 60-85): query balance,
two fresh addresses and the two fee estimates, and fix `lock_fee` to the
constant `MONERO_FEE`. -/
def WalletSnapshot.capture (bitcoin_wallet : BitcoinWallet)
    (monero_wallet : MoneroWallet) (transfer_amount : BitcoinAmount) :
    Except Nat WalletSnapshot :=
  match monero_wallet.get_balance with
  | .error e => .error e
  | .ok balance =>
    match bitcoin_wallet.new_address 0 with
    | .error e => .error e
    | .ok redeem_address =>
      match bitcoin_wallet.new_address 1 with
      | .error e => .error e
      | .ok punish_address =>
        match bitcoin_wallet.estimate_fee txRedeemWeight transfer_amount with
        | .error e => .error e
        | .ok redeem_fee =>
          match bitcoin_wallet.estimate_fee txPunishWeight transfer_amount with
          | .error e => .error e
          | .ok punish_fee =>
            .ok { balance := balance
                  lock_fee := MONERO_FEE
                  redeem_address := redeem_address
                  punish_address := punish_address
                  redeem_fee := redeem_fee
                  punish_fee := punish_fee }

/-! Concrete instances used to exercise the theorems below on closed
inputs. -/

/-- A mainnet/mainnet network pair. -/
def net0 : BlockchainNetwork := { bitcoin := .mainnet, monero := .mainnet }

/-- A mainnet environment configuration. -/
def envc0 : EnvConfig := { bitcoin_network := .mainnet, monero_network := .mainnet }

/-- A concrete rate quoting twice the bitcoin amount in piconero. -/
def rate0 : Rate := { sell_quote := fun b => .ok ⟨2 * b.sats⟩ }

/-- A concrete spot-price request for 100 satoshi on mainnet. -/
def request0 : SpotPriceRequest := { btc := ⟨100⟩, blockchain_network := net0 }

/-- A concrete wallet snapshot with an ample balance. -/
def ws0 : WalletSnapshot :=
  { balance := ⟨1000000⟩, lock_fee := ⟨1⟩, redeem_address := 0,
    punish_address := 1, redeem_fee := ⟨2⟩, punish_fee := ⟨3⟩ }

/-- A setup environment where every external interaction succeeds. -/
def envAllOk : SetupEnv :=
  { readRequest := .ok request0
    snapshotReply := fun _ => .ok ws0
    writeSpot := fun _ => .ok ()
    rest := fun _ _ _ => .ok (7, 8) }

/-- A setup environment whose wallet-snapshot reply fails (times out). -/
def envSnapshotFails : SetupEnv :=
  { readRequest := .ok request0
    snapshotReply := fun _ => .error 3
    writeSpot := fun _ => .ok ()
    rest := fun _ _ _ => .ok (0, 0) }

/-- A setup environment whose substream writes fail. -/
def envWriteFails : SetupEnv :=
  { readRequest := .ok request0
    snapshotReply := fun _ => .ok ws0
    writeSpot := fun _ => .error 9
    rest := fun _ _ _ => .ok (0, 0) }

/-- A concrete bitcoin wallet capability for exercising capture. -/
def bw0 : BitcoinWallet :=
  { new_address := fun i => .ok (i + 10)
    estimate_fee := fun w amt => .ok ⟨w + amt.sats⟩ }

/-- A concrete monero wallet capability for exercising capture. -/
def mw0 : MoneroWallet := { get_balance := .ok ⟨5⟩ }

/-- C2: `to_error_response` maps `ResumeOnlyMode` to `NoSwapsAccepted`;
the amount and network errors field-preservingly to their wire
counterparts; `BalanceTooLow` to the wire variant carrying only `buy`
(the balance is dropped for every balance value); and each of
`LatestRateFetchFailed`, `SellQuoteCalculationFailed`,
`WalletSnapshotFailed`, `Timeout` and `Io` to the opaque `Other` for
every source or timeout payload, so the wire projection never carries a
balance, an error source or a timeout value. -/
theorem to_error_response_wire_projection :
    Error.to_error_response .ResumeOnlyMode = SpotPriceError.NoSwapsAccepted ∧
    (∀ mn buy, Error.to_error_response (.AmountBelowMinimum mn buy) =
      SpotPriceError.AmountBelowMinimum mn buy) ∧
    (∀ mx buy, Error.to_error_response (.AmountAboveMaximum mx buy) =
      SpotPriceError.AmountAboveMaximum mx buy) ∧
    (∀ cli asb, Error.to_error_response (.BlockchainNetworkMismatch cli asb) =
      SpotPriceError.BlockchainNetworkMismatch cli asb) ∧
    (∀ balance buy, Error.to_error_response (.BalanceTooLow balance buy) =
      SpotPriceError.BalanceTooLow buy) ∧
    (∀ s, Error.to_error_response (.LatestRateFetchFailed s) = SpotPriceError.Other) ∧
    (∀ s, Error.to_error_response (.SellQuoteCalculationFailed s) = SpotPriceError.Other) ∧
    (∀ s, Error.to_error_response (.WalletSnapshotFailed s) = SpotPriceError.Other) ∧
    (∀ secs, Error.to_error_response (.Timeout secs) = SpotPriceError.Other) ∧
    (∀ s, Error.to_error_response ( Error.Io s) = SpotPriceError.Other) :=
  ⟨rfl, fun _ _ => rfl, fun _ _ => rfl, fun _ _ => rfl, fun _ _ => rfl,
    fun _ => rfl, fun _ => rfl, fun _ => rfl, fun _ => rfl, fun _ => rfl⟩

/-- C4: the handler is constructed with a 60-second timeout, the whole
protocol body (from reading the request through producing the final
state) runs under that single timeout, its result passes through
unchanged when it completes in time, and an elapsed timeout resolves the
task with exactly `Timeout { seconds := 60 }`. -/
theorem setup_timeout_sixty_seconds :
    (∀ now, (Handler.new now).timeoutSecs = 60) ∧
    inboundStreamResult 60 TimedResult.elapsed = .error (Error.Timeout 60) ∧
    (∀ resume_only min_buy max_buy env_config latest_rate env,
      inboundStreamResult 60 (TimedResult.completed
        (setupProtocol resume_only min_buy max_buy env_config latest_rate env).2) =
      (setupProtocol resume_only min_buy max_buy env_config latest_rate env).2) :=
  ⟨fun _ => rfl, rfl, fun _ _ _ _ _ _ => rfl⟩

/-- C5: the keep-alive field is `Until (creation + 5 s)` at construction,
becomes `Yes` when an inbound substream is fully negotiated, and becomes
`No` when the setup task resolves, whatever its result (success, any
validation failure, timeout). -/
theorem keep_alive_lifecycle :
    (∀ now, (Handler.new now).keep_alive = KeepAlive.Until (now + 5)) ∧
    (∀ h : Handler, h.injectFullyNegotiatedInbound.1.keep_alive = KeepAlive.Yes) ∧
    (∀ (h : Handler) (r : Except Error (Uuid × State3)),
      (h.poll (some r)).1.keep_alive = KeepAlive.No) :=
  ⟨fun _ => rfl, fun _ => rfl, fun _ _ => rfl⟩

/-- C9: every successful `WalletSnapshot::capture` returns a snapshot
whose `lock_fee` is exactly the constant `MONERO_FEE`, whatever the
wallets answered and whatever the transfer amount; the other fields come
from the wallets (balance, two fresh addresses, the two fee
estimates). -/
theorem capture_lock_fee_is_monero_fee (bw : BitcoinWallet) (mw : MoneroWallet)
    (transfer_amount : BitcoinAmount) (snap : WalletSnapshot)
    (h : WalletSnapshot.capture bw mw transfer_amount = .ok snap) :
    snap.lock_fee = MONERO_FEE ∧
    mw.get_balance = .ok snap.balance ∧
    bw.new_address 0 = .ok snap.redeem_address ∧
    bw.new_address 1 = .ok snap.punish_address ∧
    bw.estimate_fee txRedeemWeight transfer_amount = .ok snap.redeem_fee ∧
    bw.estimate_fee txPunishWeight transfer_amount = .ok snap.punish_fee := by
  unfold WalletSnapshot.capture at h
  split at h
  · exact absurd h (by simp)
  rename_i balance hb
  split at h
  · exact absurd h (by simp)
  rename_i redeem_address ha0
  split at h
  · exact absurd h (by simp)
  rename_i punish_address ha1
  split at h
  · exact absurd h (by simp)
  rename_i redeem_fee hf0
  split at h
  · exact absurd h (by simp)
  rename_i punish_fee hf1
  injection h with h
  subst h
  exact ⟨rfl, hb, ha0, ha1, hf0, hf1⟩

/-- Witness for C9: a concrete capture with all wallet calls succeeding. -/
theorem capture_lock_fee_is_monero_fee_witness :
    ({ balance := ⟨5⟩, lock_fee := MONERO_FEE, redeem_address := 10,
       punish_address := 11, redeem_fee := ⟨100⟩,
       punish_fee := ⟨101⟩ } : WalletSnapshot).lock_fee = MONERO_FEE ∧
    mw0.get_balance = .ok (MoneroAmount.mk 5) ∧
    bw0.new_address 0 = .ok 10 ∧
    bw0.new_address 1 = .ok 11 ∧
    bw0.estimate_fee txRedeemWeight ⟨100⟩ = .ok (BitcoinAmount.mk 100) ∧
    bw0.estimate_fee txPunishWeight ⟨100⟩ = .ok (BitcoinAmount.mk 101) :=
  capture_lock_fee_is_monero_fee bw0 mw0 ⟨100⟩
    { balance := ⟨5⟩, lock_fee := MONERO_FEE, redeem_address := 10,
      punish_address := 11, redeem_fee := ⟨100⟩, punish_fee := ⟨101⟩ } rfl

/-- C1: for every inbound spot-price request, `validate` agrees with the
spec-side `specValidate`, which reports the error of the earliest failing
check in the fixed order {resume-only, network match, min, max, rate
fetch, quote, balance} and skips every later check; when all checks pass
it succeeds with the quoted amount. -/
theorem validate_first_failure_order (resume_only : Bool)
    (min_buy max_buy : BitcoinAmount) (env_config : EnvConfig)
    (latest_rate : Except Nat Rate) (request : SpotPriceRequest)
    (ws : WalletSnapshot) :
    validate resume_only min_buy max_buy env_config latest_rate request ws =
    specValidate resume_only min_buy max_buy env_config latest_rate request ws := by
  by_cases h1 : resume_only
  · simp [validate, specValidate, specOrderedChecks, firstFailing, h1]
  · by_cases h2 : request.blockchain_network =
        ({ bitcoin := env_config.bitcoin_network,
           monero := env_config.monero_network } : BlockchainNetwork)
    · by_cases h3 : request.btc.sats < min_buy.sats
      · simp [validate, specValidate, specOrderedChecks, firstFailing, h1, h2, h3]
      · by_cases h4 : max_buy.sats < request.btc.sats
        · simp [validate, specValidate, specOrderedChecks, firstFailing, h1, h2, h3, h4]
        · rcases latest_rate with e | rate
          · simp [validate, specValidate, specOrderedChecks, firstFailing, h1, h2, h3, h4]
          · rcases hq : rate.sell_quote request.btc with e | xmr
            · simp [validate, specValidate, specOrderedChecks, firstFailing,
                h1, h2, h3, h4, hq]
            · by_cases h5 : ws.balance.piconero < xmr.piconero + ws.lock_fee.piconero
              · simp [validate, specValidate, specOrderedChecks, firstFailing,
                  h1, h2, h3, h4, hq, h5]
              · simp [validate, specValidate, specOrderedChecks, firstFailing,
                  h1, h2, h3, h4, hq, h5]
    · simp [validate, specValidate, specOrderedChecks, firstFailing, h1, h2]

/-- C7: when the taker event loop processes a dial command for a peer the
swarm already reports connected, it sends `conn_established` on the
handle channel and performs no swarm dial attempt; otherwise it attempts
the swarm dial. -/
theorem dial_already_connected_idempotent (isConnected : PeerId → Bool)
    (dialOutcome : PeerId → Except Nat Unit) (p : PeerId) :
    (isConnected p = true →
      handleDialCommand isConnected dialOutcome p =
        [TakerAction.logAlreadyConnected p, TakerAction.connEstablishedSend p] ∧
      TakerAction.swarmDialAttempt p ∉ handleDialCommand isConnected dialOutcome p) ∧
    (isConnected p = false →
      TakerAction.swarmDialAttempt p ∈ handleDialCommand isConnected dialOutcome p) := by
  constructor
  · intro hc
    simp [handleDialCommand, hc]
  · intro hc
    rcases hd : dialOutcome p with e | u <;> simp [handleDialCommand, hc, hd]

/-- Witness for C7: a peer table where peer 0 is connected and peer 1 is
not. -/
theorem dial_already_connected_idempotent_witness :
    (handleDialCommand (fun q => q == 0) (fun _ => .ok ()) 0 =
      [TakerAction.logAlreadyConnected 0, TakerAction.connEstablishedSend 0]) ∧
    TakerAction.swarmDialAttempt 1 ∈
      handleDialCommand (fun q => q == 0) (fun _ => .ok ()) 1 :=
  ⟨((dial_already_connected_idempotent (fun q => q == 0) (fun _ => .ok ()) 0).1 rfl).1,
    (dial_already_connected_idempotent (fun q => q == 0) (fun _ => .ok ()) 1).2 rfl⟩

/-- C8: when a swarm dial attempted by the taker event loop fails, the
loop performs no send on any handle-facing channel for that failure; the
failure is only logged, so the handle's dial call, which awaits the next
`conn_established`, is never woken by it. -/
theorem dial_failure_never_reported (isConnected : PeerId → Bool)
    (dialOutcome : PeerId → Except Nat Unit) (p : PeerId) (e : Nat)
    (hc : isConnected p = false) (hd : dialOutcome p = .error e) :
    handleDialCommand isConnected dialOutcome p =
      [TakerAction.logDialing p, TakerAction.swarmDialAttempt p,
        TakerAction.logDialFailure p e] ∧
    (handleDialCommand isConnected dialOutcome p).filter
      TakerAction.isHandleChannelSend = [] := by
  simp [handleDialCommand, hc, hd, TakerAction.isHandleChannelSend]

/-- Witness for C8: a disconnected peer whose dial fails with error
token 5 produces only a dial attempt and log entries, no channel send. -/
theorem dial_failure_never_reported_witness :
    (handleDialCommand (fun _ => false) (fun _ => .error 5) 2).filter
      TakerAction.isHandleChannelSend = [] :=
  (dial_failure_never_reported (fun _ => false) (fun _ => .error 5) 2 5 rfl rfl).2

/-- C6: after reading the spot-price request, the setup task's first
observable effect is sending exactly the request's btc amount on the
wallet-snapshot channel (a single-slot channel with a 5-second reply
timeout), before any wire write; and if the reply fails (in particular
when the 5-second timeout elapses) the task resolves with
`WalletSnapshotFailed`, whatever the validation configuration, so this
error takes precedence over any validation error the request would also
have triggered. -/
theorem wallet_snapshot_request_before_validation (resume_only : Bool)
    (min_buy max_buy : BitcoinAmount) (env_config : EnvConfig)
    (latest_rate : Except Nat Rate) (env : SetupEnv) (request : SpotPriceRequest)
    (hr : env.readRequest = .ok request) :
    walletSnapshotChannelCapacity = 1 ∧
    walletSnapshotTimeoutSecs = 5 ∧
    ((setupProtocol resume_only min_buy max_buy env_config latest_rate env).1.head? =
      some (SetupEvent.sentSnapshotRequest request.btc)) ∧
    (∀ s, env.snapshotReply request.btc = .error s →
      setupProtocol resume_only min_buy max_buy env_config latest_rate env =
        ([SetupEvent.sentSnapshotRequest request.btc],
          .error (Error.WalletSnapshotFailed s))) := by
  refine ⟨rfl, rfl, ?_, ?_⟩
  · rcases hs : env.snapshotReply request.btc with s | ws
    · simp [setupProtocol, hr, hs]
    · rcases hv : validate resume_only min_buy max_buy env_config latest_rate
          request ws with e | xmr
      · rcases hw : env.writeSpot (SpotPriceResponse.Error e.to_error_response)
            with w | u <;> simp [setupProtocol, hr, hs, hv, hw]
      · rcases hw : env.writeSpot (SpotPriceResponse.Xmr xmr)
            with w | u <;> simp [setupProtocol, hr, hs, hv, hw]
  · intro s hs
    simp [setupProtocol, hr, hs]

/-- Witness for C6: a snapshot reply that fails with token 3 while the
maker is in resume-only mode (so validation would also have failed):
the task still reports `WalletSnapshotFailed`. -/
theorem wallet_snapshot_request_before_validation_witness :
    ((setupProtocol true ⟨1⟩ ⟨1000⟩ envc0 (.ok rate0) envSnapshotFails).1.head? =
      some (SetupEvent.sentSnapshotRequest ⟨100⟩)) ∧
    setupProtocol true ⟨1⟩ ⟨1000⟩ envc0 (.ok rate0) envSnapshotFails =
      ([SetupEvent.sentSnapshotRequest ⟨100⟩],
        .error (Error.WalletSnapshotFailed 3)) := by
  have h := wallet_snapshot_request_before_validation true ⟨1⟩ ⟨1000⟩ envc0
    (.ok rate0) envSnapshotFails request0 rfl
  exact ⟨h.2.2.1, h.2.2.2 3 rfl⟩

/-- C3: once the wallet snapshot has arrived and with a substream that
accepts writes, a successful validation makes the task write exactly
`SpotPriceResponse::Xmr xmr` and continue with the rest of the
negotiation, while a failed validation makes it write
`SpotPriceResponse::Error (e.to_error_response)` and resolve with the
internal error `e`, which the handler's poll surfaces as
`Completed (.error e)`. -/
theorem spot_price_response_then_completion (resume_only : Bool)
    (min_buy max_buy : BitcoinAmount) (env_config : EnvConfig)
    (latest_rate : Except Nat Rate) (env : SetupEnv)
    (request : SpotPriceRequest) (ws : WalletSnapshot)
    (hr : env.readRequest = .ok request)
    (hs : env.snapshotReply request.btc = .ok ws)
    (hw : ∀ r, env.writeSpot r = .ok ()) :
    (∀ xmr, validate resume_only min_buy max_buy env_config latest_rate request ws
        = .ok xmr →
      setupProtocol resume_only min_buy max_buy env_config latest_rate env =
        ([SetupEvent.sentSnapshotRequest request.btc,
          SetupEvent.wroteSpotPrice (SpotPriceResponse.Xmr xmr)],
          env.rest request.btc xmr ws)) ∧
    (∀ e, validate resume_only min_buy max_buy env_config latest_rate request ws
        = .error e →
      setupProtocol resume_only min_buy max_buy env_config latest_rate env =
        ([SetupEvent.sentSnapshotRequest request.btc,
          SetupEvent.wroteSpotPrice (SpotPriceResponse.Error e.to_error_response)],
          .error e) ∧
      ∀ h : Handler, (h.poll (some (.error e))).2 =
        some (HandlerOutEvent.Completed (.error e))) := by
  constructor
  · intro xmr hv
    simp [setupProtocol, hr, hs, hv, hw]
  · intro e hv
    refine ⟨?_, fun h => rfl⟩
    simp [setupProtocol, hr, hs, hv, hw]

/-- Witness for C3: with all writes succeeding, a passing validation
(quote 200 piconero for 100 satoshi) writes the quote and hands over to
the rest; a failing one (resume-only mode) writes the mapped wire error
and resolves with the internal error. -/
theorem spot_price_response_then_completion_witness :
    setupProtocol false ⟨1⟩ ⟨1000⟩ envc0 (.ok rate0) envAllOk =
      ([SetupEvent.sentSnapshotRequest ⟨100⟩,
        SetupEvent.wroteSpotPrice (SpotPriceResponse.Xmr ⟨200⟩)], .ok (7, 8)) ∧
    setupProtocol true ⟨1⟩ ⟨1000⟩ envc0 (.ok rate0) envAllOk =
      ([SetupEvent.sentSnapshotRequest ⟨100⟩,
        SetupEvent.wroteSpotPrice
          (SpotPriceResponse.Error SpotPriceError.NoSwapsAccepted)],
        .error Error.ResumeOnlyMode) := by
  constructor
  · exact (spot_price_response_then_completion false ⟨1⟩ ⟨1000⟩ envc0 (.ok rate0)
      envAllOk request0 ws0 rfl rfl (fun _ => rfl)).1 ⟨200⟩ (by decide)
  · exact ((spot_price_response_then_completion true ⟨1⟩ ⟨1000⟩ envc0 (.ok rate0)
      envAllOk request0 ws0 rfl rfl (fun _ => rfl)).2 Error.ResumeOnlyMode
      (by decide)).1

/-- The validation chain only produces the seven typed validation
errors; it never returns an `Io` error. -/
theorem validate_produces_no_io_error (resume_only : Bool)
    (min_buy max_buy : BitcoinAmount) (env_config : EnvConfig)
    (latest_rate : Except Nat Rate) (request : SpotPriceRequest)
    (ws : WalletSnapshot) (s : Nat) :
    validate resume_only min_buy max_buy env_config latest_rate request ws ≠
      .error ( Error.Io s) := by
  by_cases h1 : resume_only
  · simp [validate, h1]
  · by_cases h2 : request.blockchain_network =
        ({ bitcoin := env_config.bitcoin_network,
           monero := env_config.monero_network } : BlockchainNetwork)
    · by_cases h3 : request.btc.sats < min_buy.sats
      · simp [validate, h1, h2, h3]
      · by_cases h4 : max_buy.sats < request.btc.sats
        · simp [validate, h1, h2, h3, h4]
        · rcases latest_rate with e | rate
          · simp [validate, h1, h2, h3, h4]
          · rcases hq : rate.sell_quote request.btc with e | xmr
            · simp [validate, h1, h2, h3, h4, hq]
            · by_cases h5 : ws.balance.piconero < xmr.piconero + ws.lock_fee.piconero
              · simp [validate, h1, h2, h3, h4, hq, h5]
              · simp [validate, h1, h2, h3, h4, hq, h5]
    · simp [validate, h1, h2]

/-- C10: when validation fails with `e` but writing the mapped error
response on the substream itself fails with `w`, the task resolves with
`Io w`, not with `e`; the original validation error never reaches the
handler's completion event. -/
theorem error_write_failure_masks_validation_error (resume_only : Bool)
    (min_buy max_buy : BitcoinAmount) (env_config : EnvConfig)
    (latest_rate : Except Nat Rate) (env : SetupEnv)
    (request : SpotPriceRequest) (ws : WalletSnapshot) (e : Error) (w : Nat)
    (hr : env.readRequest = .ok request)
    (hs : env.snapshotReply request.btc = .ok ws)
    (hv : validate resume_only min_buy max_buy env_config latest_rate request ws
      = .error e)
    (hw : env.writeSpot (SpotPriceResponse.Error e.to_error_response) = .error w) :
    (setupProtocol resume_only min_buy max_buy env_config latest_rate env).2 =
      .error ( Error.Io w) ∧
    (setupProtocol resume_only min_buy max_buy env_config latest_rate env).2 ≠
      .error e := by
  have hmain : (setupProtocol resume_only min_buy max_buy env_config latest_rate env).2 =
      .error ( Error.Io w) := by
    simp [setupProtocol, hr, hs, hv, hw]
  refine ⟨hmain, fun hcontra => ?_⟩
  rw [hmain] at hcontra
  injection hcontra with h
  exact validate_produces_no_io_error resume_only min_buy max_buy env_config
    latest_rate request ws w (by rw [hv, ← h])

/-- Witness for C10: resume-only validation fails, the error-response
write fails with token 9, and the task resolves with the write's
`Io` error instead of `ResumeOnlyMode`. -/
theorem error_write_failure_masks_validation_error_witness :
    (setupProtocol true ⟨1⟩ ⟨1000⟩ envc0 (.ok rate0) envWriteFails).2 =
      .error ( Error.Io 9) ∧
    (setupProtocol true ⟨1⟩ ⟨1000⟩ envc0 (.ok rate0) envWriteFails).2 ≠
      .error Error.ResumeOnlyMode :=
  error_write_failure_masks_validation_error true ⟨1⟩ ⟨1000⟩ envc0 (.ok rate0)
    envWriteFails request0 ws0 Error.ResumeOnlyMode 9 rfl rfl (by decide) rfl

end XmrBtcSwap
